import Mathlib

/-!
Verification of the GMTK input-master generator (gen_gmtk_params.py and
segway_input_master.py).

The Python code is shallowly embedded: Python floats are modelled as
rationals (the claims checked here concern the structure of the generated
tables and names, not rounding), numpy arrays either as nested lists
(NDArr) or as total functions from indices, and raising ValueError as
returning Except.error.
-/

/-! ### gen_gmtk_params.generate_gmtk_obj_names -/

/-- The allowed_types list of generate_gmtk_obj_names. -/
def gmtk_allowed_types : List String :=
  ["mx", "mc_diag", "mc_gamma", "mc_missing", "mean",
   "covar", "col", "mx_name", "dpmf", "gammascale",
   "gammashape", "tied_covar"]

/-- The name-building part of generate_gmtk_obj_names (everything after the
allowed-types check).  Python list appends inside for loops are modelled as
List.foldl with an accumulator, matching the iteration order of the source:
the mx_name branch iterates tracks outermost, the general branch iterates
segs outermost. -/
def gmtk_obj_names_body (obj : String) (track_names : List String)
    (num_segs num_subsegs : Nat) (distribution : String)
    (num_mix_components : Nat) : List String :=
  if obj = "covar" then
    track_names.foldl (fun names name => names ++ ["covar_" ++ name]) []
  else if obj = "tied_covar" then
    track_names.foldl (fun names name => names ++ ["covar_" ++ name]) []
  else if obj = "col" then
    track_names.foldl (fun names name => names ++ ["collection_seg_" ++ name]) []
  else if obj = "mx_name" then
    track_names.foldl (fun names name =>
      (List.range num_segs).foldl (fun names i =>
        (List.range num_subsegs).foldl (fun names j =>
          names ++ ["mx_seg" ++ toString i ++ "_subseg" ++ toString j ++
                    "_" ++ name]) names) names) []
  else if obj = "dpmf" ∧ num_mix_components = 1 then
    ["dpmf_always"]
  else
    (List.range num_segs).foldl (fun names i =>
      (List.range num_subsegs).foldl (fun names j =>
        track_names.foldl (fun names name =>
          names ++
            [if obj = "mc_diag" then
               "mc_" ++ distribution ++ "_seg" ++ toString i ++ "_subseg" ++
                 toString j ++ "_" ++ name
             else if obj = "mc_missing" then
               ""
             else
               obj ++ "_seg" ++ toString i ++ "_subseg" ++ toString j ++
                 "_" ++ name]) names) names) []

/-- generate_gmtk_obj_names: raises ValueError for an object type outside
allowed_types, otherwise builds the names. -/
def generate_gmtk_obj_names (obj : String) (track_names : List String)
    (num_segs num_subsegs : Nat) (distribution : String)
    (num_mix_components : Nat) : Except String (List String) :=
  if obj ∉ gmtk_allowed_types then
    .error ("Undefined GMTK object type: " ++ obj)
  else
    .ok (gmtk_obj_names_body obj track_names num_segs num_subsegs
          distribution num_mix_components)

/-! ### gen_gmtk_params wire objects -/

/-- Stand-in for the Python str() rendering of a float; the claims proved in
this file never depend on the text of an individual numeral. -/
def ratStr (x : ℚ) : String := toString x

/-- A nested numeric array (the nested-list probability argument of
DenseCPT). -/
inductive NDArr where
  | scalar (x : ℚ)
  | arr (xs : List NDArr)

def MC_TYPE_DIAG : String := "COMPONENT_TYPE_DIAG_GAUSSIAN"

def MC_TYPE_GAMMA : String := "COMPONENT_TYPE_GAMMA"

def MC_TYPE_MISSING : String := "COMPONENT_TYPE_MISSING_FEATURE_SCALED_DIAG_GAUSSIAN"

/-- Mean: name plus mean values (the *args of Mean.__init__). -/
structure MeanData where
  name : String
  mean_values : List ℚ
deriving DecidableEq

/-- Covar: name plus covariance values. -/
structure CovarData where
  name : String
  covar_values : List ℚ
deriving DecidableEq

/-- NameCollection: name plus the (already flattened) member names. -/
structure NameCollectionData where
  name : String
  names_in_col : List String
deriving DecidableEq

/-- DeterministicCPT: the stored fields; parent cardinalities are kept as
the strings joined by generate. -/
structure DeterministicCPTData where
  name : String
  parent_card : List String
  cardinality : String
  dt : String
deriving DecidableEq

/-- DenseCPT: parent_card none models the -1 sentinel (no parents); the
constructor wraps a scalar parent_card into a one-element list, so the
stored form is always a list when present. -/
structure DenseCPTData where
  name : String
  parent_card : Option (List Nat)
  cardinality : Nat
  prob : NDArr

/-- DPMF: name plus weight values. -/
structure DPMFData where
  name : String
  dpmf_values : List ℚ
deriving DecidableEq

/-- DPMF.__init__: stores the values, then raises ValueError unless they sum
to exactly 1.0 (exact comparison in the source; exact rational comparison
here). -/
def mkDPMF (name : String) (args : List ℚ) : Except String DPMFData :=
  if args.sum ≠ 1 then .error "DPMF values must sum to 1.0."
  else .ok ⟨name, args⟩

/-- MC: the stored fields.  The source stores the mean and covar objects
themselves and its generate method reads only their .name attribute, which
is what is kept here. -/
structure MCData where
  name : String
  dim : Nat
  type : String
  meanName : String
  covarName : String
  gamma_shape : String
  gamma_scale : String
deriving DecidableEq

/-- MX: the stored fields (components already normalized to a list). -/
structure MXData where
  name : String
  dim : Nat
  dpmf : DPMFData
  comp : List MCData
deriving DecidableEq

/-- The components argument of MX.__init__: either a bare component or a
list of components (the isinstance(components, list) test). -/
inductive MXComponents where
  | single (c : MCData)
  | listOf (cs : List MCData)
deriving DecidableEq

def MXComponents.toList : MXComponents → List MCData
  | .single c => [c]
  | .listOf cs => cs

/-- MX.__init__: wraps a bare component into a list, then raises ValueError
if the DPMF value count differs from the component count. -/
def mkMX (name : String) (dim : Nat) (dpmf : DPMFData)
    (components : MXComponents) : Except String MXData :=
  let comps := components.toList
  if dpmf.dpmf_values.length ≠ comps.length then
    .error ("Dimension of DPMF object must be equal " ++
            "to number of components of MX.")
  else
    .ok ⟨name, dim, dpmf, comps⟩

/-! ### gen_gmtk_params: per-object generate renderings -/

/-- Mean.generate: one space-joined line ending in a trailing space and a
newline (the final "\n" element of the join). -/
def MeanData.generate (m : MeanData) (index : Nat) : String :=
  String.intercalate " "
    ([toString index, m.name, toString m.mean_values.length] ++
     m.mean_values.map ratStr ++ ["\n"])

/-- Covar.generate. -/
def CovarData.generate (c : CovarData) (index : Nat) : String :=
  String.intercalate " "
    ([toString index, c.name, toString c.covar_values.length] ++
     c.covar_values.map ratStr ++ ["\n"])

/-- DPMF.generate. -/
def DPMFData.generate (d : DPMFData) (index : Nat) : String :=
  String.intercalate " "
    ([toString index, d.name, toString d.dpmf_values.length] ++
     d.dpmf_values.map ratStr ++ ["\n"])

/-- NameCollection.generate: header line, member names one per line, blank
line. -/
def NameCollectionData.generate (c : NameCollectionData) (index : Nat) : String :=
  String.intercalate "\n"
    [String.intercalate " " [toString index, c.name, toString c.names_in_col.length],
     String.intercalate "\n" c.names_in_col,
     "\n"]

/-- DeterministicCPT.generate. -/
def DeterministicCPTData.generate (d : DeterministicCPTData) (index : Nat) : String :=
  String.intercalate "\n"
    [String.intercalate " " [toString index, d.name],
     toString d.parent_card.length,
     String.intercalate " " (d.parent_card ++ [d.cardinality]),
     d.dt,
     "\n"]

/-- The isinstance(prob[0], float) test of DenseCPT.generate_prob. -/
def NDArr.headIsScalar : List NDArr → Bool
  | .scalar _ :: _ => true
  | _ => false

def NDArr.leafStr : NDArr → String
  | .scalar x => ratStr x
  | .arr _ => ""

/-- DenseCPT.generate_prob: a leaf level (first element a float) is
space-joined, outer levels are newline-joined recursively.  The source only
ever reaches this with every element of a leaf level a float; a non-scalar
in a scalar-headed list is rendered as the empty string by leafStr. -/
def generate_prob : NDArr → String
  | .scalar x => ratStr x
  | .arr xs =>
    if NDArr.headIsScalar xs then
      String.intercalate " " (xs.map NDArr.leafStr)
    else
      String.intercalate "\n" (xs.attach.map fun e => generate_prob e.1)
decreasing_by
  have h := List.sizeOf_lt_of_mem e.2
  simp only [NDArr.arr.sizeOf_spec]
  omega

/-- DenseCPT.generate: header line (index, name, parent count, parent
cardinalities when present, cardinality), probability block plus newline,
blank line. -/
def DenseCPTData.generate (d : DenseCPTData) (index : Nat) : String :=
  let line := match d.parent_card with
    | none => [toString index, d.name, "0", toString d.cardinality]
    | some pcs =>
        [toString index, d.name, toString pcs.length] ++
          pcs.map toString ++ [toString d.cardinality]
  String.intercalate "\n"
    [String.intercalate " " line, generate_prob d.prob ++ "\n", "\n"]

/-- MC.generate: the gamma branch emits no trailing newline element; the
missing-feature and diagonal branches do. -/
def MCData.generate (mc : MCData) (index : Nat) : String :=
  let line :=
    if mc.type = MC_TYPE_GAMMA then
      [toString index, toString mc.dim, mc.type, mc.gamma_scale, mc.gamma_shape]
    else if mc.type = MC_TYPE_MISSING then
      [toString index, toString mc.dim, mc.type, mc.name, mc.meanName,
       mc.covarName, "matrix_weightscale_1x1", "\n"]
    else
      [toString index, toString mc.dim, mc.type, mc.name, mc.meanName,
       mc.covarName, "\n"]
  String.intercalate " " line

/-- MX.generate. -/
def MXData.generate (mx : MXData) (index : Nat) : String :=
  String.intercalate " "
    ([toString index, toString mx.dim, mx.name, toString mx.comp.length,
      mx.dpmf.name] ++ mx.comp.map (fun c => c.name) ++ ["\n"])

/-! ### gen_gmtk_params.InputMaster -/

/-- The runtime type of a value passed to InputMaster.update: one
constructor per allowed GMTK class (the isinstance dispatch). -/
inductive GmtkObj where
  | mean (m : MeanData)
  | covar (c : CovarData)
  | deterministic (d : DeterministicCPTData)
  | dense (d : DenseCPTData)
  | dpmf (d : DPMFData)
  | mc (m : MCData)
  | mx (m : MXData)
  | nameCollection (c : NameCollectionData)

/-- The .name attribute read by InputMaster.update. -/
def GmtkObj.name : GmtkObj → String
  | .mean m => m.name
  | .covar c => c.name
  | .deterministic d => d.name
  | .dense d => d.name
  | .dpmf d => d.name
  | .mc m => m.name
  | .mx m => m.name
  | .nameCollection c => c.name

/-- The dynamic dispatch obj.generate(key_index) performed by the per-kind
render methods. -/
def GmtkObj.generate : GmtkObj → Nat → String
  | .mean m, i => m.generate i
  | .covar c, i => c.generate i
  | .deterministic d, i => d.generate i
  | .dense d, i => d.generate i
  | .dpmf d, i => d.generate i
  | .mc m, i => m.generate i
  | .mx m, i => m.generate i
  | .nameCollection c, i => c.generate i

/-- The eight registry kinds of InputMaster. -/
inductive GmtkKind where
  | mean | covar | deterministic | dense | dpmf | mc | mx | nameCollection
deriving DecidableEq

/-- The kind an object is dispatched to by the isinstance tests. -/
def GmtkObj.kind : GmtkObj → GmtkKind
  | .mean _ => .mean
  | .covar _ => .covar
  | .deterministic _ => .deterministic
  | .dense _ => .dense
  | .dpmf _ => .dpmf
  | .mc _ => .mc
  | .mx _ => .mx
  | .nameCollection _ => .nameCollection

/-- InputMaster: one insertion-ordered, name-keyed collection per kind
(Python OrderedDict modelled as an association list; every state reachable
through update has pairwise distinct keys, as a dict does). -/
structure InputMaster where
  mean : List (String × GmtkObj)
  covar : List (String × GmtkObj)
  dense : List (String × GmtkObj)
  deterministic : List (String × GmtkObj)
  dpmf : List (String × GmtkObj)
  mc : List (String × GmtkObj)
  mx : List (String × GmtkObj)
  name_collection : List (String × GmtkObj)

/-- InputMaster.__init__: all eight collections empty. -/
def InputMaster.init : InputMaster := ⟨[], [], [], [], [], [], [], []⟩

/-- OrderedDict item assignment d[key] = v: an existing key keeps its
position and gets the new value; a new key is appended at the end. -/
def odUpdate (l : List (String × GmtkObj)) (key : String) (v : GmtkObj) :
    List (String × GmtkObj) :=
  if key ∈ l.map Prod.fst then
    l.map (fun p => if p.1 = key then (key, v) else p)
  else
    l ++ [(key, v)]

/-- The registration loop body of InputMaster.update for one (already
type-checked) object: self.<kind>[obj.name] = obj. -/
def InputMaster.updateSingle (im : InputMaster) (o : GmtkObj) : InputMaster :=
  match o with
  | .mean _ => { im with mean := odUpdate im.mean o.name o }
  | .covar _ => { im with covar := odUpdate im.covar o.name o }
  | .deterministic _ => { im with deterministic := odUpdate im.deterministic o.name o }
  | .dense _ => { im with dense := odUpdate im.dense o.name o }
  | .dpmf _ => { im with dpmf := odUpdate im.dpmf o.name o }
  | .mc _ => { im with mc := odUpdate im.mc o.name o }
  | .mx _ => { im with mx := odUpdate im.mx o.name o }
  | .nameCollection _ => { im with name_collection := odUpdate im.name_collection o.name o }

/-- The collection of a given kind. -/
def InputMaster.fieldOf (im : InputMaster) : GmtkKind → List (String × GmtkObj)
  | .mean => im.mean
  | .covar => im.covar
  | .deterministic => im.deterministic
  | .dense => im.dense
  | .dpmf => im.dpmf
  | .mc => im.mc
  | .mx => im.mx
  | .nameCollection => im.name_collection

/-- An element of the argument of InputMaster.update as seen at runtime:
either one of the eight allowed GMTK types, or any other Python value. -/
inductive UpdateElem where
  | gmtk (o : GmtkObj)
  | nonGmtk

/-- The disjunction of isinstance tests in update's first loop. -/
def UpdateElem.isAllowed : UpdateElem → Bool
  | .gmtk _ => true
  | .nonGmtk => false

/-- update accepts a single object or a list of objects. -/
inductive UpdateArg where
  | single (e : UpdateElem)
  | listOf (es : List UpdateElem)

/-- The normalization performed by update: a non-list argument is wrapped
into a one-element list. -/
def UpdateArg.elems : UpdateArg → List UpdateElem
  | .single e => [e]
  | .listOf es => es

/-- InputMaster.update: a first loop raises ValueError if any element is
not an allowed GMTK type (before anything is registered), then a second
loop registers every element. -/
def InputMaster.update (im : InputMaster) (arg : UpdateArg) :
    Except String InputMaster :=
  let objs := arg.elems
  if objs.all UpdateElem.isAllowed then
    .ok (objs.foldl
      (fun acc e =>
        match e with
        | .gmtk o => acc.updateSingle o
        | .nonGmtk => acc) im)
  else
    .error "Object is not an allowed GMTK type."

/-- Shared shape of the per-kind render methods of InputMaster: an empty
collection renders to nothing (the source returns the empty list [], which
the "".join in __str__ turns into the empty string, modelled directly as
""); a non-empty collection renders to the header line, the count followed
by a blank line, then every member's rendering in insertion order with its
freshly assigned 0-based index, all newline-joined. -/
def generateKindBlock (header : String) (l : List (String × GmtkObj)) : String :=
  if l.length = 0 then ""
  else
    String.intercalate "\n"
      ([header ++ "_IN_FILE inline", toString l.length ++ "\n"] ++
       l.enum.map (fun p => p.2.2.generate p.1))

/-- InputMaster.generate_mean. -/
def InputMaster.generate_mean (im : InputMaster) : String :=
  generateKindBlock "MEAN" im.mean

/-- InputMaster.generate_covar. -/
def InputMaster.generate_covar (im : InputMaster) : String :=
  generateKindBlock "COVAR" im.covar

/-- InputMaster.generate_dense. -/
def InputMaster.generate_dense (im : InputMaster) : String :=
  generateKindBlock "DENSE_CPT" im.dense

/-- InputMaster.generate_deterministic. -/
def InputMaster.generate_deterministic (im : InputMaster) : String :=
  generateKindBlock "DETERMINISTIC_CPT" im.deterministic

/-- InputMaster.generate_dpmf. -/
def InputMaster.generate_dpmf (im : InputMaster) : String :=
  generateKindBlock "DPMF" im.dpmf

/-- InputMaster.generate_mc. -/
def InputMaster.generate_mc (im : InputMaster) : String :=
  generateKindBlock "MC" im.mc

/-- InputMaster.generate_mx. -/
def InputMaster.generate_mx (im : InputMaster) : String :=
  generateKindBlock "MX" im.mx

/-- InputMaster.generate_name_col. -/
def InputMaster.generate_name_col (im : InputMaster) : String :=
  generateKindBlock "NAME_COLLECTION" im.name_collection

/-- InputMaster.__str__: "".join over the per-kind blocks in the fixed
source order. -/
def InputMaster.toStr (im : InputMaster) : String :=
  String.join
    [im.generate_name_col, im.generate_deterministic, im.generate_dense,
     im.generate_mean, im.generate_covar, im.generate_dpmf,
     im.generate_mc, im.generate_mx]

/-! ### segway_input_master: shared numeric utilities -/

/-- prob_transition_from_expected_len. -/
def prob_transition_from_expected_len (length : ℚ) : ℚ :=
  length / (1 + length)

/-- genomedata fill_array specialized to a two-dimensional shape: a
constant-filled length-by-width nested list. -/
def fill_array (v : ℚ) (n m : Nat) : List (List ℚ) :=
  List.replicate n (List.replicate m v)

/-- The fancy-index diagonal assignment res[range(n), range(n)] = v. -/
def set_diagonal (rows : List (List ℚ)) (v : ℚ) : List (List ℚ) :=
  rows.enum.map fun p => p.2.enum.map fun q => if p.1 = q.1 then v else q.2

/-- make_zero_diagonal_table: for length 1 the one-dimensional array
[1.0]; otherwise a length-by-length matrix filled with
(1 - 0)/(length - 1) whose diagonal is then overwritten with 0. -/
def make_zero_diagonal_table (length : Nat) : NDArr :=
  if length = 1 then .arr [.scalar 1]
  else
    let prob_self_self : ℚ := 0
    let prob_self_other : ℚ := (1 - prob_self_self) / ((length : ℚ) - 1)
    let res := fill_array prob_self_other length length
    let res2 := set_diagonal res prob_self_self
    .arr (res2.map fun row => .arr (row.map NDArr.scalar))

/-! ### segway_input_master: duration transition table -/

def LEN_SEG_EXPECTED : Nat := 100000

def LEN_SUBSEG_EXPECTED : Nat := 100

/-- The SegTransition axis has cardinality 3, so table cells are triples
(P(no transition), P(subseg transition), P(seg transition)). -/
def Vec3 : Type := ℚ × ℚ × ℚ

instance : DecidableEq Vec3 := by unfold Vec3; infer_instance

/-- The configuration consumed by TableParamSpec.
seg_table is the two-column-indexed numpy segment-length table; its
OFFSET_START / OFFSET_END / OFFSET_STEP columns (constants from the
package _util module, outside this repository) are modelled as the three
per-label functions seg_table_start / seg_table_end / seg_table_step. -/
structure DurationConfig where
  card_seg_countdown : Nat
  num_segs : Nat
  resolution : Nat
  seg_table_start : Nat → Nat
  seg_table_end : Nat → Nat
  seg_table_step : Nat → Nat
  seg_countdowns_initial : Nat → Nat

/-- TableParamSpec.calc_prob_transition: floor-divides the expected length
by the resolution, then applies the geometric formula. -/
def calc_prob_transition (cfg : DurationConfig) (length : Nat) : ℚ × ℚ :=
  let length_scaled : Nat := length / cfg.resolution
  let prob_self_self := prob_transition_from_expected_len (length_scaled : ℚ)
  (prob_self_self, 1 - prob_self_self)

/-- probs_allow_transition. -/
def probs_allow_transition (cfg : DurationConfig) : Vec3 :=
  let s := calc_prob_transition cfg LEN_SEG_EXPECTED
  let u := calc_prob_transition cfg LEN_SUBSEG_EXPECTED
  (s.1 * u.1, s.1 * u.2, s.2)

/-- probs_prevent_transition. -/
def probs_prevent_transition (cfg : DurationConfig) : Vec3 :=
  let u := calc_prob_transition cfg LEN_SUBSEG_EXPECTED
  (u.1, u.2, 0)

/-- probs_force_transition = [0.0, 0.0, 1.0]. -/
def probs_force_transition : Vec3 := (0, 0, 1)

/-- The (card_seg_countdown, num_segs) grid of SegTransition rows, as a
total function (indices outside the grid are irrelevant to every claim). -/
def DurTable : Type := Nat → Nat → Vec3

/-- Python/numpy normalization of a slice bound against axis length n:
negative bounds count from the end, and bounds are clamped to [0, n]. -/
def pySliceIndex (n : Nat) (x : Int) : Nat :=
  if x < 0 then (x + n).toNat else min x.toNat n

/-- Fancy-index row assignment res[row, labels] = v. -/
def fancyRowAssign (res : DurTable) (row : Nat) (labels : List Nat)
    (v : Vec3) : DurTable :=
  fun i l => if i = row ∧ l ∈ labels then v else res i l

/-- Fancy-index slice assignment res[lo:hi, labels] = v (bounds already
normalized). -/
def fancySliceAssign (res : DurTable) (lo hi : Nat) (labels : List Nat)
    (v : Vec3) : DurTable :=
  fun i l => if lo ≤ i ∧ i < hi ∧ l ∈ labels then v else res i l

/-- Single-label slice assignment res[lo:hi, label] = v (bounds already
normalized). -/
def labelSliceAssign (res : DurTable) (lo hi : Nat) (label : Nat)
    (v : Vec3) : DurTable :=
  fun i l => if lo ≤ i ∧ i < hi ∧ l = label then v else res i l

/-- where(bitmap) for bitmap = (seg_table ends == 0): ascending label
indices whose maximum-duration column is zero. -/
def labels_without_maximum (cfg : DurationConfig) : List Nat :=
  (List.range cfg.num_segs).filter (fun l => cfg.seg_table_end l = 0)

/-- where(~bitmap): ascending label indices with a maximum duration. -/
def labels_with_maximum (cfg : DurationConfig) : List Nat :=
  (List.range cfg.num_segs).filter (fun l => cfg.seg_table_end l ≠ 0)

/-- seg_countdown_allow = seg_countdown_initial - minimum + 1 with
minimum = seg_table[label, start] // seg_table[label, step]; computed in ℤ
because the subtraction can go negative. -/
def seg_countdown_allow (cfg : DurationConfig) (label : Nat) : Int :=
  (cfg.seg_countdowns_initial label : Int) -
    (cfg.seg_table_start label / cfg.seg_table_step label : Nat) + 1

/-- The two per-label slice assignments of the loop over
labels_with_maximum:
res[1:seg_countdown_allow, label] = probs_allow_transition and
res[seg_countdown_allow:, label] = probs_prevent_transition. -/
def segCountDown_label_step (cfg : DurationConfig) (res : DurTable)
    (label : Nat) : DurTable :=
  let card := cfg.card_seg_countdown
  let allow := seg_countdown_allow cfg label
  let res1 := labelSliceAssign res (pySliceIndex card 1)
    (pySliceIndex card allow) label (probs_allow_transition cfg)
  labelSliceAssign res1 (pySliceIndex card allow) card label
    (probs_prevent_transition cfg)

/-- TableParamSpec.make_dense_cpt_segCountDown_seg_segTransition: starts
from numpy empty (arbitrary contents, the explicit init argument), fills
rows for the labels without a maximum, forces row 0 for the labels with a
maximum, then runs the per-label slice assignments. -/
def make_dense_cpt_segCountDown_seg_segTransition (cfg : DurationConfig)
    (init : DurTable) : DurTable :=
  let card := cfg.card_seg_countdown
  let res1 := fancyRowAssign init 0 (labels_without_maximum cfg)
    (probs_allow_transition cfg)
  let res2 := fancySliceAssign res1 (pySliceIndex card 1) card
    (labels_without_maximum cfg) (probs_prevent_transition cfg)
  let res3 := fancyRowAssign res2 0 (labels_with_maximum cfg)
    probs_force_transition
  (labels_with_maximum cfg).foldl (segCountDown_label_step cfg) res3

/-! ### segway_input_master: free-parameter accounting -/

/-- The distribution selector of InputMasterSaver (DISTRIBUTION_NORM,
DISTRIBUTION_ASINH_NORMAL and DISTRIBUTION_GAMMA come from the package
_util module; any other value is unsupported). -/
inductive SegwayDistribution where
  | norm | asinh_norm | gamma | unsupported (s : String)
deriving DecidableEq

/-- Membership in the DISTRIBUTIONS_LIKE_NORM frozenset. -/
def DISTRIBUTIONS_LIKE_NORM (d : SegwayDistribution) : Bool :=
  match d with
  | .norm => true
  | .asinh_norm => true
  | _ => false

/-- The num_free_params accumulation of InputMasterSaver.make_mapping:
starts at 0, adds the seg_seg and segCountDown_seg_segTransition
contributions, then the distribution branch; COVAR_TIED is the module-level
constant (true exactly when USE_MFSDG is false). -/
def make_mapping_num_free_params (num_segs num_subsegs num_track_groups : Nat)
    (use_mfsdg : Bool) (distribution : SegwayDistribution) :
    Except String Nat :=
  let covar_tied := !use_mfsdg
  let fullnum_subsegs := num_segs * num_subsegs
  let n1 := 0 + fullnum_subsegs * (fullnum_subsegs - 1)
  let n2 := n1 + fullnum_subsegs
  if DISTRIBUTIONS_LIKE_NORM distribution then
    .ok (if covar_tied then n2 + (fullnum_subsegs + 1) * num_track_groups
         else n2 + (fullnum_subsegs * 2) * num_track_groups)
  else
    match distribution with
    | .gamma => .ok (n2 + (fullnum_subsegs * 2) * num_track_groups)
    | _ => .error "distribution not supported"

/-- A concrete two-label configuration exercising the duration table:
label 0 has no maximum duration, label 1 has one with
seg_countdown_allow = 2 - (2 // 1) + 1 = 1. -/
def exampleDurationConfig : DurationConfig :=
  ⟨3, 2, 1, fun _ => 2, fun l => if l = 0 then 0 else 10, fun _ => 1,
   fun _ => 2⟩

/-- A one-label configuration whose label has a maximum duration but
seg_countdown_allow = 1 - (2 // 1) + 1 = 0. -/
def degenerateDurationConfig : DurationConfig :=
  ⟨2, 1, 1, fun _ => 2, fun _ => 5, fun _ => 1, fun _ => 1⟩

/-- A concrete stand-in for the arbitrary contents of numpy empty. -/
def zeroInitTable : DurTable := fun _ _ => (0, 0, 0)

/-! ### Helper lemmas -/

/-- A Python append loop over xs is the map on xs, appended to the
accumulator. -/
theorem foldl_append_one {α β : Type} (f : α → β) :
    ∀ (xs : List α) (acc : List β),
      xs.foldl (fun a x => a ++ [f x]) acc = acc ++ xs.map f := by
  intro xs
  induction xs with
  | nil => intro acc; simp
  | cons x xs ih => intro acc; simp [ih]

/-- A loop appending a block per element is the flatMap, appended to the
accumulator. -/
theorem foldl_append_chunk {α β : Type} (h : α → List β) :
    ∀ (xs : List α) (acc : List β),
      xs.foldl (fun a x => a ++ h x) acc = acc ++ xs.flatMap h := by
  intro xs
  induction xs with
  | nil => intro acc; simp
  | cons x xs ih => intro acc; simp [ih]

/-! ### C7 -/

/-- C7: generate_gmtk_obj_names fails with InvalidInput exactly when the
kind is not one of the twelve allowed tags, and returns normally for every
kind in that set, whatever the other arguments are. -/
theorem generate_gmtk_obj_names_allowed (obj : String)
    (track_names : List String) (num_segs num_subsegs : Nat)
    (distribution : String) (num_mix_components : Nat) :
    ((generate_gmtk_obj_names obj track_names num_segs num_subsegs
        distribution num_mix_components).isOk = true ↔
      obj ∈ gmtk_allowed_types) ∧
    (obj ∉ gmtk_allowed_types →
      generate_gmtk_obj_names obj track_names num_segs num_subsegs
          distribution num_mix_components =
        .error ("Undefined GMTK object type: " ++ obj)) := by
  unfold generate_gmtk_obj_names
  by_cases h : obj ∈ gmtk_allowed_types <;> simp [h, Except.isOk, Except.toBool]

/-- Witness for C7 at concrete inputs. -/
theorem generate_gmtk_obj_names_allowed_witness :
    "bogus" ∉ gmtk_allowed_types ∧
    generate_gmtk_obj_names "bogus" ["t"] 1 1 "norm" 1 =
      .error ("Undefined GMTK object type: " ++ "bogus") :=
  ⟨by decide,
   (generate_gmtk_obj_names_allowed "bogus" ["t"] 1 1 "norm" 1).2 (by decide)⟩

/-! ### C5 -/

/-- C5: constructing a DPMF succeeds exactly when the supplied values sum
to 1; in particular [0.5, 0.5] succeeds and [0.4, 0.5] fails with
ValueError. -/
theorem dpmf_sum_check :
    (∀ (name : String) (values : List ℚ),
      (mkDPMF name values).isOk = true ↔ values.sum = 1) ∧
    (mkDPMF "d" [1/2, 1/2]).isOk = true ∧
    mkDPMF "d" [4/10, 1/2] = .error "DPMF values must sum to 1.0." := by
  have key : ∀ (name : String) (values : List ℚ),
      (mkDPMF name values).isOk = true ↔ values.sum = 1 := by
    intro name values
    unfold mkDPMF
    by_cases h : values.sum = 1 <;> simp [h, Except.isOk, Except.toBool]
  refine ⟨key, ?_, ?_⟩
  · rw [key]; norm_num
  · unfold mkDPMF
    rw [if_pos]
    norm_num

/-! ### C6 -/

/-- C6: constructing an MX fails exactly when the DPMF value count differs
from the (normalized) component count; in particular a 2-value DPMF with a
single bare component fails. -/
theorem mx_component_count_check :
    (∀ (name : String) (dim : Nat) (dpmf : DPMFData)
       (components : MXComponents),
      (mkMX name dim dpmf components).isOk = false ↔
        dpmf.dpmf_values.length ≠ components.toList.length) ∧
    mkMX "m" 1 ⟨"d", [1/2, 1/2]⟩
        (.single ⟨"c", 1, MC_TYPE_DIAG, "mean0", "covar0", "", ""⟩) =
      .error ("Dimension of DPMF object must be equal " ++
              "to number of components of MX.") := by
  constructor
  · intro name dim dpmf components
    unfold mkMX
    by_cases h : dpmf.dpmf_values.length = components.toList.length <;>
      simp [h, Except.isOk, Except.toBool]
  · unfold mkMX
    rw [if_pos]
    simp [MXComponents.toList]

/-! ### C9 -/

/-- C9: the num_free_params accumulated by make_mapping equals
fullnum_subsegs*(fullnum_subsegs-1) for seg_seg plus fullnum_subsegs for
the countdown table, plus (fullnum_subsegs+1)*num_track_groups for a
norm-like distribution with tied covariances (COVAR_TIED, i.e. USE_MFSDG
false) and (fullnum_subsegs*2)*num_track_groups otherwise, and
(fullnum_subsegs*2)*num_track_groups for the gamma distribution; for
num_segs=2, num_subsegs=1, num_track_groups=1, tied covariance, norm, the
total is 7. -/
theorem make_mapping_free_params_value (ns nss ntg : Nat) (use_mfsdg : Bool)
    (d : SegwayDistribution) :
    (DISTRIBUTIONS_LIKE_NORM d = true →
      make_mapping_num_free_params ns nss ntg use_mfsdg d =
        .ok (ns * nss * (ns * nss - 1) + ns * nss +
          (if use_mfsdg then (ns * nss * 2) * ntg
           else (ns * nss + 1) * ntg))) ∧
    make_mapping_num_free_params ns nss ntg use_mfsdg .gamma =
      .ok (ns * nss * (ns * nss - 1) + ns * nss + (ns * nss * 2) * ntg) ∧
    make_mapping_num_free_params 2 1 1 false .norm = .ok 7 := by
  refine ⟨fun h => ?_, ?_, by rfl⟩
  · unfold make_mapping_num_free_params
    rw [if_pos h]
    cases use_mfsdg <;> simp
  · unfold make_mapping_num_free_params
    simp [DISTRIBUTIONS_LIKE_NORM]

/-- Witness for C9: the norm-like branch at concrete inputs, under both
covariance-tying settings. -/
theorem make_mapping_free_params_witness :
    DISTRIBUTIONS_LIKE_NORM .asinh_norm = true ∧
    make_mapping_num_free_params 3 2 2 false SegwayDistribution.asinh_norm = .ok 50 ∧
    make_mapping_num_free_params 3 2 2 true SegwayDistribution.asinh_norm = .ok 60 := by
  refine ⟨by decide, ?_, ?_⟩
  · exact ((make_mapping_free_params_value 3 2 2 false
      SegwayDistribution.asinh_norm).1 (by decide)).trans (by rfl)
  · exact ((make_mapping_free_params_value 3 2 2 true
      SegwayDistribution.asinh_norm).1 (by decide)).trans (by rfl)

/-! ### C2 -/

/-- An allowed kind reaches the name-building body. -/
theorem generate_gmtk_obj_names_ok (obj : String) (track_names : List String)
    (num_segs num_subsegs : Nat) (distribution : String)
    (num_mix_components : Nat) (h : obj ∈ gmtk_allowed_types) :
    generate_gmtk_obj_names obj track_names num_segs num_subsegs
        distribution num_mix_components =
      .ok (gmtk_obj_names_body obj track_names num_segs num_subsegs
            distribution num_mix_components) := by
  unfold generate_gmtk_obj_names
  rw [if_neg]
  simpa using h

/-- C2 counterexample: for kind mc_missing the generator yields the empty
string for every (seg, subseg, track) triple, not the general pattern
name. -/
theorem gmtk_obj_names_mc_missing_counterexample :
    generate_gmtk_obj_names "mc_missing" ["t"] 1 1 "norm" 1 = .ok [""] ∧
    generate_gmtk_obj_names "mc_missing" ["t"] 1 1 "norm" 1 ≠
      .ok ["mc_missing_seg0_subseg0_t"] := by
  have h : generate_gmtk_obj_names "mc_missing" ["t"] 1 1 "norm" 1 =
      .ok [""] := rfl
  refine ⟨h, ?_⟩
  rw [h]
  intro hc
  simp only [Except.ok.injEq, List.cons.injEq] at hc
  exact absurd hc.1 (by decide)

/-- C2 (amended): the kind-specific name patterns and iteration orders of
generate_gmtk_obj_names: covar/tied_covar and col give one name per track;
mx_name iterates track outermost, then seg, then subseg; dpmf with one
mixture component gives the single name dpmf_always; the general branch
iterates seg outermost, then subseg, then track, with the mc_diag pattern
carrying the distribution, mc_missing producing the empty string for every
triple, and every other kind (including dpmf with several mixture
components) producing kind_seg-subseg-track names. -/
theorem gmtk_obj_names_patterns (track_names : List String) (ns nss : Nat)
    (dist : String) (nmc : Nat) :
    generate_gmtk_obj_names "covar" track_names ns nss dist nmc =
      .ok (track_names.map fun t => "covar_" ++ t) ∧
    generate_gmtk_obj_names "tied_covar" track_names ns nss dist nmc =
      .ok (track_names.map fun t => "covar_" ++ t) ∧
    generate_gmtk_obj_names "col" track_names ns nss dist nmc =
      .ok (track_names.map fun t => "collection_seg_" ++ t) ∧
    generate_gmtk_obj_names "mx_name" track_names ns nss dist nmc =
      .ok (track_names.flatMap fun t =>
        (List.range ns).flatMap fun i =>
          (List.range nss).map fun j =>
            "mx_seg" ++ toString i ++ "_subseg" ++ toString j ++ "_" ++ t) ∧
    (nmc = 1 →
      generate_gmtk_obj_names "dpmf" track_names ns nss dist nmc =
        .ok ["dpmf_always"]) ∧
    generate_gmtk_obj_names "mc_diag" track_names ns nss dist nmc =
      .ok ((List.range ns).flatMap fun i =>
        (List.range nss).flatMap fun j =>
          track_names.map fun t =>
            "mc_" ++ dist ++ "_seg" ++ toString i ++ "_subseg" ++
              toString j ++ "_" ++ t) ∧
    generate_gmtk_obj_names "mc_missing" track_names ns nss dist nmc =
      .ok ((List.range ns).flatMap fun _ =>
        (List.range nss).flatMap fun _ =>
          track_names.map fun _ => "") ∧
    (∀ obj ∈ (["mx", "mc_gamma", "mean", "gammascale", "gammashape"] : List String),
      generate_gmtk_obj_names obj track_names ns nss dist nmc =
        .ok ((List.range ns).flatMap fun i =>
          (List.range nss).flatMap fun j =>
            track_names.map fun t =>
              obj ++ "_seg" ++ toString i ++ "_subseg" ++ toString j ++
                "_" ++ t)) ∧
    (nmc ≠ 1 →
      generate_gmtk_obj_names "dpmf" track_names ns nss dist nmc =
        .ok ((List.range ns).flatMap fun i =>
          (List.range nss).flatMap fun j =>
            track_names.map fun t =>
              "dpmf" ++ "_seg" ++ toString i ++ "_subseg" ++ toString j ++
                "_" ++ t)) := by
  refine ⟨?_, ?_, ?_, ?_, fun h1 => ?_, ?_, ?_, ?_, fun h1 => ?_⟩
  · rw [generate_gmtk_obj_names_ok _ _ _ _ _ _ (by decide)]
    simp only [gmtk_obj_names_body, String.reduceEq, reduceIte,
      foldl_append_one, List.nil_append]
  · rw [generate_gmtk_obj_names_ok _ _ _ _ _ _ (by decide)]
    simp only [gmtk_obj_names_body, String.reduceEq, reduceIte,
      foldl_append_one, List.nil_append]
  · rw [generate_gmtk_obj_names_ok _ _ _ _ _ _ (by decide)]
    simp only [gmtk_obj_names_body, String.reduceEq, reduceIte,
      foldl_append_one, List.nil_append]
  · rw [generate_gmtk_obj_names_ok _ _ _ _ _ _ (by decide)]
    simp only [gmtk_obj_names_body, String.reduceEq, reduceIte,
      foldl_append_one, foldl_append_chunk, List.nil_append]
  · subst h1
    rw [generate_gmtk_obj_names_ok _ _ _ _ _ _ (by decide)]
    simp only [gmtk_obj_names_body, String.reduceEq, reduceIte, and_self,
      and_true]
  · rw [generate_gmtk_obj_names_ok _ _ _ _ _ _ (by decide)]
    simp only [gmtk_obj_names_body, String.reduceEq, reduceIte, false_and,
      foldl_append_one, foldl_append_chunk, List.nil_append]
  · rw [generate_gmtk_obj_names_ok _ _ _ _ _ _ (by decide)]
    simp only [gmtk_obj_names_body, String.reduceEq, reduceIte, false_and,
      foldl_append_one, foldl_append_chunk, List.nil_append]
  · intro obj hobj
    fin_cases hobj <;>
      · rw [generate_gmtk_obj_names_ok _ _ _ _ _ _ (by decide)]
        simp only [gmtk_obj_names_body, String.reduceEq, reduceIte,
          false_and, foldl_append_one, foldl_append_chunk, List.nil_append]
  · rw [generate_gmtk_obj_names_ok _ _ _ _ _ _ (by decide)]
    simp only [gmtk_obj_names_body, String.reduceEq, reduceIte, h1,
      true_and, and_false, false_and, foldl_append_one, foldl_append_chunk,
      List.nil_append]

/-- Witness for C2 at concrete inputs (the two worked examples of the
spec plus a two-segment mean case). -/
theorem gmtk_obj_names_patterns_witness :
    generate_gmtk_obj_names "covar" ["gc", "len"] 2 3 "norm" 1 =
      .ok ["covar_gc", "covar_len"] ∧
    generate_gmtk_obj_names "dpmf" ["t"] 1 1 "norm" 1 =
      .ok ["dpmf_always"] ∧
    generate_gmtk_obj_names "mean" ["t"] 2 1 "norm" 2 =
      .ok ["mean_seg0_subseg0_t", "mean_seg1_subseg0_t"] := by
  refine ⟨?_, ?_, ?_⟩
  · exact ((gmtk_obj_names_patterns ["gc", "len"] 2 3 "norm" 1).1).trans
      (by rfl)
  · exact (gmtk_obj_names_patterns ["t"] 1 1 "norm" 1).2.2.2.2.1 rfl
  · exact ((gmtk_obj_names_patterns ["t"] 2 1 "norm" 2).2.2.2.2.2.2.2.1
      "mean" (by decide)).trans (by rfl)

/-! ### C3 -/

/-- The left identity of string concatenation. -/
theorem str_empty_append (s : String) : "" ++ s = s := rfl

/-- C3: InputMaster.__str__ concatenates the per-kind blocks in the fixed
order name collections, deterministic CPTs, dense CPTs, means,
covariances, DPMFs, mixture components, mixtures, and every kind whose
collection is empty contributes nothing at all to the document. -/
theorem inputMaster_str_order (im : InputMaster) :
    im.toStr =
      im.generate_name_col ++ im.generate_deterministic ++
      im.generate_dense ++ im.generate_mean ++ im.generate_covar ++
      im.generate_dpmf ++ im.generate_mc ++ im.generate_mx ∧
    (im.name_collection = [] → im.generate_name_col = "") ∧
    (im.deterministic = [] → im.generate_deterministic = "") ∧
    (im.dense = [] → im.generate_dense = "") ∧
    (im.mean = [] → im.generate_mean = "") ∧
    (im.covar = [] → im.generate_covar = "") ∧
    (im.dpmf = [] → im.generate_dpmf = "") ∧
    (im.mc = [] → im.generate_mc = "") ∧
    (im.mx = [] → im.generate_mx = "") := by
  refine ⟨?_, fun h => ?_, fun h => ?_, fun h => ?_, fun h => ?_,
    fun h => ?_, fun h => ?_, fun h => ?_, fun h => ?_⟩
  · show String.join _ = _
    simp only [String.join, List.foldl]
    rw [str_empty_append]
  · simp [InputMaster.generate_name_col, generateKindBlock, h]
  · simp [InputMaster.generate_deterministic, generateKindBlock, h]
  · simp [InputMaster.generate_dense, generateKindBlock, h]
  · simp [InputMaster.generate_mean, generateKindBlock, h]
  · simp [InputMaster.generate_covar, generateKindBlock, h]
  · simp [InputMaster.generate_dpmf, generateKindBlock, h]
  · simp [InputMaster.generate_mc, generateKindBlock, h]
  · simp [InputMaster.generate_mx, generateKindBlock, h]

/-- Witness for C3: a freshly initialized registry renders to the empty
document, and its empty mean kind contributes nothing. -/
theorem inputMaster_str_order_witness :
    InputMaster.init.toStr = "" ∧ InputMaster.init.generate_mean = "" := by
  obtain ⟨h0, h1, h2, h3, h4, h5, h6, h7, h8⟩ :=
    inputMaster_str_order InputMaster.init
  refine ⟨?_, h4 rfl⟩
  rw [h0, h1 rfl, h2 rfl, h3 rfl, h4 rfl, h5 rfl, h6 rfl, h7 rfl, h8 rfl]
  rfl

/-! ### C8 -/

/-- odUpdate on a present key keeps the collection length. -/
theorem odUpdate_length_of_mem (l : List (String × GmtkObj)) (key : String)
    (v : GmtkObj) (h : key ∈ l.map Prod.fst) :
    (odUpdate l key v).length = l.length := by
  simp [odUpdate, h]

/-- odUpdate on a present key rewrites exactly the entries carrying that
key, in place, and leaves every other position untouched. -/
theorem odUpdate_getD_of_mem (l : List (String × GmtkObj)) (key : String)
    (v : GmtkObj) (h : key ∈ l.map Prod.fst) (i : Nat) (hi : i < l.length)
    (d : String × GmtkObj) :
    (odUpdate l key v).getD i d =
      if (l.getD i d).1 = key then (key, v) else l.getD i d := by
  unfold odUpdate
  rw [if_pos h]
  rw [List.getD_eq_getElem _ _ (by simpa using hi),
      List.getD_eq_getElem _ _ hi, List.getElem_map]

/-- odUpdate on an absent key appends the new pair at the end. -/
theorem odUpdate_of_not_mem (l : List (String × GmtkObj)) (key : String)
    (v : GmtkObj) (h : key ∉ l.map Prod.fst) :
    odUpdate l key v = l ++ [(key, v)] := by
  simp [odUpdate, h]

/-- Registration dispatches the object into the collection of its own
kind via an OrderedDict assignment. -/
theorem updateSingle_fieldOf_kind (im : InputMaster) (o : GmtkObj) :
    (im.updateSingle o).fieldOf o.kind = odUpdate (im.fieldOf o.kind) o.name o := by
  cases o <;> rfl

/-- C8: registering an object whose name already exists under its kind
replaces the stored value at the name's original position (every other
position of the collection, and hence every other object's rendering
index, is untouched); registering a fresh name appends it at the end.
The final conjunct ties this to the public update entry point. -/
theorem inputMaster_update_keeps_order (im : InputMaster) (o : GmtkObj) :
    (o.name ∈ ((im.fieldOf o.kind).map Prod.fst) →
      ((im.updateSingle o).fieldOf o.kind).length =
        (im.fieldOf o.kind).length ∧
      ∀ i, i < (im.fieldOf o.kind).length →
        ((im.updateSingle o).fieldOf o.kind).getD i ("", GmtkObj.mean ⟨"", []⟩) =
          if ((im.fieldOf o.kind).getD i ("", GmtkObj.mean ⟨"", []⟩)).1 = o.name
          then (o.name, o)
          else (im.fieldOf o.kind).getD i ("", GmtkObj.mean ⟨"", []⟩)) ∧
    (o.name ∉ ((im.fieldOf o.kind).map Prod.fst) →
      (im.updateSingle o).fieldOf o.kind =
        im.fieldOf o.kind ++ [(o.name, o)]) ∧
    im.update (.single (.gmtk o)) = .ok (im.updateSingle o) := by
  refine ⟨fun h => ⟨?_, fun i hi => ?_⟩, fun h => ?_, rfl⟩
  · rw [updateSingle_fieldOf_kind]
    exact odUpdate_length_of_mem _ _ _ h
  · rw [updateSingle_fieldOf_kind]
    exact odUpdate_getD_of_mem _ _ _ h i hi _
  · rw [updateSingle_fieldOf_kind]
    exact odUpdate_of_not_mem _ _ _ h

/-- Witness for C8: re-registering name a in a two-entry mean collection
keeps the length and leaves the entry at position 1 untouched, and
appending a fresh name c puts it at the end. -/
theorem inputMaster_update_keeps_order_witness :
    ((InputMaster.updateSingle
        ⟨[("a", GmtkObj.mean ⟨"a", [1]⟩), ("b", GmtkObj.mean ⟨"b", [2]⟩)],
         [], [], [], [], [], [], []⟩
        (GmtkObj.mean ⟨"a", [5]⟩)).fieldOf GmtkKind.mean).length = 2 ∧
    ((InputMaster.updateSingle
        ⟨[("a", GmtkObj.mean ⟨"a", [1]⟩), ("b", GmtkObj.mean ⟨"b", [2]⟩)],
         [], [], [], [], [], [], []⟩
        (GmtkObj.mean ⟨"a", [5]⟩)).fieldOf GmtkKind.mean).getD 1
        ("", GmtkObj.mean ⟨"", []⟩) = ("b", GmtkObj.mean ⟨"b", [2]⟩) ∧
    ((InputMaster.updateSingle
        ⟨[("a", GmtkObj.mean ⟨"a", [1]⟩), ("b", GmtkObj.mean ⟨"b", [2]⟩)],
         [], [], [], [], [], [], []⟩
        (GmtkObj.mean ⟨"c", [7]⟩)).fieldOf GmtkKind.mean) =
      [("a", GmtkObj.mean ⟨"a", [1]⟩), ("b", GmtkObj.mean ⟨"b", [2]⟩),
       ("c", GmtkObj.mean ⟨"c", [7]⟩)] := by
  have h1 := (inputMaster_update_keeps_order
    ⟨[("a", GmtkObj.mean ⟨"a", [1]⟩), ("b", GmtkObj.mean ⟨"b", [2]⟩)],
     [], [], [], [], [], [], []⟩
    (GmtkObj.mean ⟨"a", [5]⟩)).1 (by simp [InputMaster.fieldOf, GmtkObj.kind, GmtkObj.name])
  have h2 := (inputMaster_update_keeps_order
    ⟨[("a", GmtkObj.mean ⟨"a", [1]⟩), ("b", GmtkObj.mean ⟨"b", [2]⟩)],
     [], [], [], [], [], [], []⟩
    (GmtkObj.mean ⟨"c", [7]⟩)).2.1 (by simp [InputMaster.fieldOf, GmtkObj.kind, GmtkObj.name])
  refine ⟨h1.1, (h1.2 1 (by decide)).trans (by rfl), h2.trans (by rfl)⟩

/-! ### C10 -/

/-- C10: InputMaster.update accepts a single wire object or a list;
registration succeeds exactly when every element is one of the eight
allowed GMTK types, any disallowed element makes the whole call fail with
ValueError before anything is registered (the registry value is only
produced in the success case, so no per-kind mapping is modified on
failure), and a single allowed object is registered directly. -/
theorem inputMaster_update_type_check (im : InputMaster) (arg : UpdateArg) :
    ((im.update arg).isOk = true ↔ ∀ e ∈ arg.elems, e.isAllowed = true) ∧
    ((∃ e ∈ arg.elems, e.isAllowed = false) →
      im.update arg = .error "Object is not an allowed GMTK type.") ∧
    (∀ o : GmtkObj, im.update (.single (.gmtk o)) = .ok (im.updateSingle o)) := by
  refine ⟨?_, fun h => ?_, fun o => rfl⟩
  · unfold InputMaster.update
    by_cases h : arg.elems.all UpdateElem.isAllowed
    · rw [if_pos h]
      simpa [Except.isOk, Except.toBool] using List.all_eq_true.mp h
    · rw [if_neg h]
      constructor
      · intro hc
        exact absurd hc (by simp [Except.isOk, Except.toBool])
      · intro hall
        exact absurd (List.all_eq_true.mpr hall) h
  · obtain ⟨e, he, hbad⟩ := h
    unfold InputMaster.update
    rw [if_neg]
    intro hall
    have := List.all_eq_true.mp hall e he
    rw [hbad] at this
    exact Bool.false_ne_true this

/-- Witness for C10: a list containing a non-GMTK value fails as a whole,
and a single allowed object registers. -/
theorem inputMaster_update_type_check_witness :
    InputMaster.init.update
        (.listOf [.gmtk (GmtkObj.mean ⟨"m", []⟩), .nonGmtk]) =
      .error "Object is not an allowed GMTK type." ∧
    InputMaster.init.update (.single (.gmtk (GmtkObj.mean ⟨"m", []⟩))) =
      .ok (InputMaster.init.updateSingle (GmtkObj.mean ⟨"m", []⟩)) := by
  refine ⟨?_, (inputMaster_update_type_check InputMaster.init
    (.single (.gmtk (GmtkObj.mean ⟨"m", []⟩)))).2.2 _⟩
  exact (inputMaster_update_type_check InputMaster.init _).2.1
    ⟨.nonGmtk, List.Mem.tail _ (List.Mem.head _), rfl⟩

/-! ### C4 -/

/-- Sum of a constant row with a missed diagonal position: all n entries
are c. -/
theorem sum_row_no_hit (c : ℚ) :
    ∀ (n i : Nat), n ≤ i →
      (((List.range n).map fun j => if i = j then (0 : ℚ) else c)).sum =
        n * c := by
  intro n
  induction n with
  | zero => intro i _; simp
  | succ n ih =>
    intro i hi
    rw [List.range_succ]
    simp only [List.map_append, List.sum_append, List.map_cons, List.map_nil,
      List.sum_cons, List.sum_nil]
    rw [ih i (by omega), if_neg (by omega)]
    push_cast
    ring

/-- Sum of a constant row with one diagonal zero inside: n-1 entries of
c remain. -/
theorem sum_row_hit (c : ℚ) :
    ∀ (n i : Nat), i < n →
      (((List.range n).map fun j => if i = j then (0 : ℚ) else c)).sum =
        ((n : ℚ) - 1) * c := by
  intro n
  induction n with
  | zero => intro i hi; omega
  | succ n ih =>
    intro i hi
    rw [List.range_succ]
    simp only [List.map_append, List.sum_append, List.map_cons, List.map_nil,
      List.sum_cons, List.sum_nil]
    by_cases h : i = n
    · rw [sum_row_no_hit c n i (by omega), if_pos h]
      push_cast
      ring
    · rw [ih i (by omega), if_neg h]
      push_cast
      ring

/-- Overwriting the diagonal of a constant square matrix yields the
index-based description of the zero-diagonal table. -/
theorem set_diagonal_fill (n : Nat) (v w : ℚ) :
    set_diagonal (fill_array v n n) w =
      (List.range n).map fun i =>
        (List.range n).map fun j => if i = j then w else v := by
  unfold set_diagonal fill_array
  apply List.ext_getElem
  · simp
  · intro i h1 h2
    simp only [List.getElem_map, List.getElem_enum, List.getElem_replicate,
      List.getElem_range]
    apply List.ext_getElem
    · simp
    · intro j g1 g2
      simp [List.getElem_map, List.getElem_enum, List.getElem_replicate,
        List.getElem_range]

/-- C4 counterexample: make_zero_diagonal_table(1) is the one-dimensional
array [1.0], not the 1x1 matrix [[1.0]]. -/
theorem make_zero_diagonal_table_one_counterexample :
    make_zero_diagonal_table 1 = NDArr.arr [NDArr.scalar 1] ∧
    make_zero_diagonal_table 1 ≠ NDArr.arr [NDArr.arr [NDArr.scalar 1]] := by
  refine ⟨rfl, ?_⟩
  intro h
  rw [show make_zero_diagonal_table 1 = NDArr.arr [NDArr.scalar 1] from rfl]
    at h
  injection h with h1
  injection h1 with h2 h3
  injection h2

/-- C4 (amended): make_zero_diagonal_table(1) is the one-dimensional array
[1.0]; for every n at least 2 the result is the n-by-n matrix with 0.0 on
the diagonal and 1/(n-1) off it, and every row sums to 1. -/
theorem make_zero_diagonal_table_values :
    make_zero_diagonal_table 1 = NDArr.arr [NDArr.scalar 1] ∧
    ∀ n, 2 ≤ n →
      make_zero_diagonal_table n =
        NDArr.arr ((List.range n).map fun i =>
          NDArr.arr ((List.range n).map fun j =>
            NDArr.scalar (if i = j then 0 else 1 / ((n : ℚ) - 1)))) ∧
      ∀ i, i < n →
        (((List.range n).map fun j =>
            if i = j then (0 : ℚ) else 1 / ((n : ℚ) - 1))).sum = 1 := by
  refine ⟨rfl, fun n hn => ⟨?_, fun i hi => ?_⟩⟩
  · have hne : ¬(n = 1) := by omega
    simp only [make_zero_diagonal_table, hne, if_false]
    rw [show ((1 : ℚ) - 0) / ((n : ℚ) - 1) = 1 / ((n : ℚ) - 1) by ring,
      set_diagonal_fill]
    simp [List.map_map, Function.comp]
  · have hcne : ((n : ℚ) - 1) ≠ 0 := by
      have h2 : (2 : ℚ) ≤ (n : ℚ) := by exact_mod_cast hn
      linarith
    rw [sum_row_hit _ n i hi]
    field_simp

/-! ### C1 -/

/-- A slice assignment to one label leaves every other label's rows
untouched. -/
theorem labelSliceAssign_other (res : DurTable) (lo hi label : Nat)
    (v : Vec3) (i l : Nat) (h : l ≠ label) :
    labelSliceAssign res lo hi label v i l = res i l := by
  simp [labelSliceAssign, h]

/-- The per-label step of the duration-table loop leaves other labels
untouched. -/
theorem segCountDown_label_step_other (cfg : DurationConfig) (res : DurTable)
    (a i l : Nat) (h : l ≠ a) :
    segCountDown_label_step cfg res a i l = res i l := by
  simp only [segCountDown_label_step]
  rw [labelSliceAssign_other _ _ _ _ _ _ _ h,
      labelSliceAssign_other _ _ _ _ _ _ _ h]

/-- The per-label step at its own label: the prevent-range assignment is
applied last, the allow-range assignment before it, and anything outside
both ranges keeps the incoming value. -/
theorem segCountDown_label_step_self (cfg : DurationConfig) (res : DurTable)
    (l i : Nat) :
    segCountDown_label_step cfg res l i l =
      if pySliceIndex cfg.card_seg_countdown (seg_countdown_allow cfg l) ≤ i ∧
          i < cfg.card_seg_countdown then
        probs_prevent_transition cfg
      else if pySliceIndex cfg.card_seg_countdown 1 ≤ i ∧
          i < pySliceIndex cfg.card_seg_countdown (seg_countdown_allow cfg l) then
        probs_allow_transition cfg
      else res i l := by
  simp [segCountDown_label_step, labelSliceAssign]

/-- The loop over labels never touches a label outside the list. -/
theorem segCountDown_fold_not_mem (cfg : DurationConfig) :
    ∀ (L : List Nat) (res : DurTable) (i l : Nat), l ∉ L →
      (L.foldl (segCountDown_label_step cfg) res) i l = res i l := by
  intro L
  induction L with
  | nil => intro res i l _; rfl
  | cons a L ih =>
    intro res i l hl
    have h1 : l ≠ a := fun he => hl (he ▸ List.Mem.head _)
    have h2 : l ∉ L := fun hm => hl (List.Mem.tail _ hm)
    rw [List.foldl_cons, ih _ i l h2,
      segCountDown_label_step_other cfg res a i l h1]

/-- For a list without duplicates, the loop acts on each member label
exactly as its own step does. -/
theorem segCountDown_fold_mem (cfg : DurationConfig) :
    ∀ (L : List Nat) (res : DurTable) (i l : Nat), L.Nodup → l ∈ L →
      (L.foldl (segCountDown_label_step cfg) res) i l =
        segCountDown_label_step cfg res l i l := by
  intro L
  induction L with
  | nil => intro res i l _ h; cases h
  | cons a L ih =>
    intro res i l hnd hl
    rw [List.foldl_cons]
    rcases List.mem_cons.mp hl with h | h
    · subst h
      have ha : l ∉ L := (List.nodup_cons.mp hnd).1
      exact segCountDown_fold_not_mem cfg L _ i l ha
    · have hnd2 : L.Nodup := (List.nodup_cons.mp hnd).2
      have hne : l ≠ a := fun he => (List.nodup_cons.mp hnd).1 (he ▸ h)
      rw [ih _ i l hnd2 h, segCountDown_label_step_self,
        segCountDown_label_step_self,
        segCountDown_label_step_other cfg res a i l hne]

/-- Membership in the with-maximum label list. -/
theorem mem_labels_with_maximum (cfg : DurationConfig) (l : Nat) :
    l ∈ labels_with_maximum cfg ↔
      l < cfg.num_segs ∧ cfg.seg_table_end l ≠ 0 := by
  simp [labels_with_maximum, List.mem_filter]

/-- Membership in the without-maximum label list. -/
theorem mem_labels_without_maximum (cfg : DurationConfig) (l : Nat) :
    l ∈ labels_without_maximum cfg ↔
      l < cfg.num_segs ∧ cfg.seg_table_end l = 0 := by
  simp [labels_without_maximum, List.mem_filter]

/-- The with-maximum label list has no duplicates. -/
theorem nodup_labels_with_maximum (cfg : DurationConfig) :
    (labels_with_maximum cfg).Nodup :=
  (List.nodup_range _).filter _

/-- Pointwise value of the duration table at a label with a maximum
duration. -/
theorem make_dense_cpt_eval_with (cfg : DurationConfig) (init : DurTable)
    (i l : Nat) (hl : l < cfg.num_segs) (h0 : cfg.seg_table_end l ≠ 0) :
    make_dense_cpt_segCountDown_seg_segTransition cfg init i l =
      if pySliceIndex cfg.card_seg_countdown (seg_countdown_allow cfg l) ≤ i ∧
          i < cfg.card_seg_countdown then
        probs_prevent_transition cfg
      else if pySliceIndex cfg.card_seg_countdown 1 ≤ i ∧
          i < pySliceIndex cfg.card_seg_countdown (seg_countdown_allow cfg l) then
        probs_allow_transition cfg
      else if i = 0 then probs_force_transition
      else init i l := by
  have hmem : l ∈ labels_with_maximum cfg :=
    (mem_labels_with_maximum cfg l).mpr ⟨hl, h0⟩
  have hnotw : l ∉ labels_without_maximum cfg := by
    rw [mem_labels_without_maximum]
    rintro ⟨-, hc⟩
    exact h0 hc
  simp only [make_dense_cpt_segCountDown_seg_segTransition]
  rw [segCountDown_fold_mem cfg _ _ i l (nodup_labels_with_maximum cfg) hmem,
    segCountDown_label_step_self]
  simp [fancyRowAssign, fancySliceAssign, hmem, hnotw]

/-- Pointwise value of the duration table at a label without a maximum
duration. -/
theorem make_dense_cpt_eval_without (cfg : DurationConfig) (init : DurTable)
    (i l : Nat) (hl : l < cfg.num_segs) (h0 : cfg.seg_table_end l = 0) :
    make_dense_cpt_segCountDown_seg_segTransition cfg init i l =
      if pySliceIndex cfg.card_seg_countdown 1 ≤ i ∧
          i < cfg.card_seg_countdown then
        probs_prevent_transition cfg
      else if i = 0 then probs_allow_transition cfg
      else init i l := by
  have hmem : l ∈ labels_without_maximum cfg :=
    (mem_labels_without_maximum cfg l).mpr ⟨hl, h0⟩
  have hnotw : l ∉ labels_with_maximum cfg := by
    rw [mem_labels_with_maximum]
    rintro ⟨-, hc⟩
    exact hc h0
  simp only [make_dense_cpt_segCountDown_seg_segTransition]
  rw [segCountDown_fold_not_mem cfg _ _ i l hnotw]
  simp [fancyRowAssign, fancySliceAssign, hmem, hnotw]

/-- C1 counterexample: for the degenerate configuration, label 0 has a
nonzero maximum-duration column but seg_countdown_allow = 0, and countdown
row 0 of that label ends up equal to probs_prevent_transition (the
res[seg_countdown_allow:, label] assignment reaches row 0 and overwrites
probs_force_transition), while the claim requires probs_force_transition
there. -/
theorem segCountDown_table_counterexample :
    degenerateDurationConfig.seg_table_end 0 ≠ 0 ∧
    seg_countdown_allow degenerateDurationConfig 0 = 0 ∧
    make_dense_cpt_segCountDown_seg_segTransition degenerateDurationConfig
        zeroInitTable 0 0 =
      probs_prevent_transition degenerateDurationConfig ∧
    probs_prevent_transition degenerateDurationConfig ≠
      probs_force_transition := by
  refine ⟨by decide, by decide, ?_, ?_⟩
  · rw [make_dense_cpt_eval_with _ _ 0 0 (by decide) (by decide)]
    rw [if_pos ⟨by decide, by decide⟩]
  · intro h
    have h3 := congrArg (fun v : Vec3 => v.2.2) h
    simp only [probs_prevent_transition, probs_force_transition] at h3
    norm_num at h3

/-- C1 (amended): for every configuration with card_seg_countdown at
least 1 in which every label with a nonzero maximum-duration column has
seg_countdown_allow at least 1, the (card_seg_countdown, num_segs, 3)
duration table satisfies: for a label whose maximum-duration column is 0,
countdown row 0 equals probs_allow_transition and every row
1..card_seg_countdown-1 equals probs_prevent_transition; for a label with
a nonzero maximum, countdown row 0 equals probs_force_transition =
[0.0, 0.0, 1.0], rows 1..seg_countdown_allow-1 equal
probs_allow_transition and rows seg_countdown_allow..card_seg_countdown-1
equal probs_prevent_transition, with seg_countdown_allow =
seg_countdowns_initial[label] - (seg_table[label,start] //
seg_table[label,step]) + 1; all independently of the arbitrary contents
of the numpy empty allocation. -/
theorem segCountDown_seg_segTransition_table (cfg : DurationConfig)
    (init : DurTable) (hcard : 0 < cfg.card_seg_countdown)
    (hallow : ∀ l, l < cfg.num_segs → cfg.seg_table_end l ≠ 0 →
      1 ≤ seg_countdown_allow cfg l) :
    ∀ l, l < cfg.num_segs →
      (cfg.seg_table_end l = 0 →
        make_dense_cpt_segCountDown_seg_segTransition cfg init 0 l =
          probs_allow_transition cfg ∧
        ∀ i, 1 ≤ i → i < cfg.card_seg_countdown →
          make_dense_cpt_segCountDown_seg_segTransition cfg init i l =
            probs_prevent_transition cfg) ∧
      (cfg.seg_table_end l ≠ 0 →
        make_dense_cpt_segCountDown_seg_segTransition cfg init 0 l =
          probs_force_transition ∧
        ∀ i, 1 ≤ i → i < cfg.card_seg_countdown →
          (((i : Int) < seg_countdown_allow cfg l →
            make_dense_cpt_segCountDown_seg_segTransition cfg init i l =
              probs_allow_transition cfg) ∧
          (seg_countdown_allow cfg l ≤ (i : Int) →
            make_dense_cpt_segCountDown_seg_segTransition cfg init i l =
              probs_prevent_transition cfg))) := by
  have hone : pySliceIndex cfg.card_seg_countdown 1 = 1 := by
    unfold pySliceIndex
    rw [if_neg (by omega)]
    simp only [Int.toNat_one]
    omega
  refine fun l hl => ⟨fun h0 => ⟨?_, fun i h1 h2 => ?_⟩,
    fun h0 => ⟨?_, fun i h1 h2 => ⟨fun hlt => ?_, fun hge => ?_⟩⟩⟩
  · rw [make_dense_cpt_eval_without cfg init 0 l hl h0, hone,
      if_neg (by omega), if_pos rfl]
  · rw [make_dense_cpt_eval_without cfg init i l hl h0, hone,
      if_pos ⟨h1, h2⟩]
  · have ha := hallow l hl h0
    have hA : pySliceIndex cfg.card_seg_countdown (seg_countdown_allow cfg l) =
        min (seg_countdown_allow cfg l).toNat cfg.card_seg_countdown := by
      unfold pySliceIndex
      rw [if_neg (by omega)]
    rw [make_dense_cpt_eval_with cfg init 0 l hl h0, hA, hone,
      if_neg (by omega), if_neg (by omega), if_pos rfl]
  · have ha := hallow l hl h0
    have hA : pySliceIndex cfg.card_seg_countdown (seg_countdown_allow cfg l) =
        min (seg_countdown_allow cfg l).toNat cfg.card_seg_countdown := by
      unfold pySliceIndex
      rw [if_neg (by omega)]
    rw [make_dense_cpt_eval_with cfg init i l hl h0, hA, hone,
      if_neg (by omega), if_pos (by omega)]
  · have ha := hallow l hl h0
    have hA : pySliceIndex cfg.card_seg_countdown (seg_countdown_allow cfg l) =
        min (seg_countdown_allow cfg l).toNat cfg.card_seg_countdown := by
      unfold pySliceIndex
      rw [if_neg (by omega)]
    rw [make_dense_cpt_eval_with cfg init i l hl h0, hA,
      if_pos (by omega)]

/-- Witness for C1 at the concrete example configuration. -/
theorem segCountDown_seg_segTransition_table_witness :
    (0 < exampleDurationConfig.card_seg_countdown ∧
     ∀ l, l < exampleDurationConfig.num_segs →
       exampleDurationConfig.seg_table_end l ≠ 0 →
       1 ≤ seg_countdown_allow exampleDurationConfig l) ∧
    ∀ l, l < exampleDurationConfig.num_segs →
      (exampleDurationConfig.seg_table_end l = 0 →
        make_dense_cpt_segCountDown_seg_segTransition exampleDurationConfig
            zeroInitTable 0 l =
          probs_allow_transition exampleDurationConfig ∧
        ∀ i, 1 ≤ i → i < exampleDurationConfig.card_seg_countdown →
          make_dense_cpt_segCountDown_seg_segTransition exampleDurationConfig
              zeroInitTable i l =
            probs_prevent_transition exampleDurationConfig) ∧
      (exampleDurationConfig.seg_table_end l ≠ 0 →
        make_dense_cpt_segCountDown_seg_segTransition exampleDurationConfig
            zeroInitTable 0 l =
          probs_force_transition ∧
        ∀ i, 1 ≤ i → i < exampleDurationConfig.card_seg_countdown →
          (((i : Int) < seg_countdown_allow exampleDurationConfig l →
            make_dense_cpt_segCountDown_seg_segTransition
                exampleDurationConfig zeroInitTable i l =
              probs_allow_transition exampleDurationConfig) ∧
          (seg_countdown_allow exampleDurationConfig l ≤ (i : Int) →
            make_dense_cpt_segCountDown_seg_segTransition
                exampleDurationConfig zeroInitTable i l =
              probs_prevent_transition exampleDurationConfig))) :=
  ⟨⟨by decide, fun l _ _ => by
      unfold seg_countdown_allow exampleDurationConfig
      norm_num⟩,
   segCountDown_seg_segTransition_table exampleDurationConfig zeroInitTable
     (by decide) (fun l _ _ => by
      unfold seg_countdown_allow exampleDurationConfig
      norm_num)⟩

/-- Witness for C4 at n = 3 (diagonal 0, off-diagonal 1/2, row 0 sums
to 1). -/
theorem make_zero_diagonal_table_values_witness :
    (2 : Nat) ≤ 3 ∧
    make_zero_diagonal_table 3 =
      NDArr.arr ((List.range 3).map fun i =>
        NDArr.arr ((List.range 3).map fun j =>
          NDArr.scalar (if i = j then 0 else 1 / ((3 : ℚ) - 1)))) ∧
    (((List.range 3).map fun j =>
        if 0 = j then (0 : ℚ) else 1 / ((3 : ℚ) - 1))).sum = 1 :=
  ⟨by norm_num,
   (make_zero_diagonal_table_values.2 3 (by norm_num)).1,
   (make_zero_diagonal_table_values.2 3 (by norm_num)).2 0 (by norm_num)⟩
